import Mathlib

/-!
Verification of the STlooper live audio looper engine.

The definitions below are a shallow embedding of the looper core shared by
`looper_v0.4.py` and `looper_v0.6.py` (the two versions are line-for-line
identical on every function modelled here: `audio_callback`, `toggle_record`,
`reset_loop`, `toggle_playback`, `toggle_monitor`, `record_for_duration`).

Modelling conventions:
- the stream is mono (`CHANNELS = 1`), so a sample frame is a single sample;
  samples are modelled as integers since no claim here depends on
  floating-point rounding (only on copying, concatenation and one
  elementwise sum whose numeric type is irrelevant);
- a block (`indata` of one callback invocation, one `record_queue` element,
  one `monitor_queue` element) is a list of frames;
- Python's `queue.Queue` is a FIFO: `put` appends at the tail, `get` pops the
  head, so a queue is a list with the oldest element first; draining with
  `while not q.empty(): frames.append(q.get())` yields the list itself;
- NumPy slicing `buf[a:b]` clamps out-of-range bounds exactly like
  `List.drop`/`List.take`, and `np.vstack` of blocks is list append;
- a Python runtime error in the callback (NumPy shape mismatch on
  `outdata[:] = chunk` or on `chunk + indata`) is modelled as `none`.
-/

/-- One sample frame (mono, `CHANNELS = 1`): a single sample. -/
abbrev Frame := Int

/-- One block of frames, as handed to the callback or stored in a queue. -/
abbrev Block := List Frame

/-- The global mutable state of the looper:
`loop_buffer`, `record_queue`, `monitor_queue`, `is_recording`, `is_playing`,
`monitor_enabled`, `playback_index` of the Python source. -/
structure LooperState where
  loop_buffer : Block
  record_queue : List Block
  monitor_queue : List Block
  is_recording : Bool
  is_playing : Bool
  monitor_enabled : Bool
  playback_index : Nat
deriving DecidableEq, Repr

/-- The state at startup: `loop_buffer = np.empty((0,1))`, empty queues,
all flags `False`, `playback_index = 0`. -/
def initState : LooperState :=
  { loop_buffer := []
    record_queue := []
    monitor_queue := []
    is_recording := false
    is_playing := false
    monitor_enabled := false
    playback_index := 0 }

/-- `monitor_queue.put(x)`: `queue.Queue()` is created with no `maxsize`,
so a put always appends at the tail (unbounded FIFO). -/
def monitor_put (q : List Block) (x : Block) : List Block := q ++ [x]

/-- `audio_callback(indata, outdata, frames, time, status)` of the source
(v0.6 lines 79-102, v0.4 lines 76-99).  Returns `some (outdata, state)` for
a normal return and `none` for a Python runtime error (a chunk whose length
differs from `frames` cannot be broadcast into `outdata`). -/
def audio_callback (indata : Block) (s : LooperState) :
    Option (Block × LooperState) :=
  if s.is_recording then
    -- record_queue.put(indata.copy()); outdata.fill(0)
    some (List.replicate indata.length 0,
          { s with record_queue := s.record_queue ++ [indata] })
  else if s.is_playing ∧ 0 < s.loop_buffer.length then
    -- length = loop_buffer.shape[0]; end = playback_index + frames
    let length := s.loop_buffer.length
    let e := s.playback_index + indata.length
    let chunk : Block :=
      if e ≤ length then
        -- loop_buffer[playback_index:end]
        (s.loop_buffer.drop s.playback_index).take indata.length
      else
        -- np.vstack((loop_buffer[playback_index:length], loop_buffer[0:end-length]))
        s.loop_buffer.drop s.playback_index ++ s.loop_buffer.take (e - length)
    let s1 := { s with playback_index := e % length }
    if chunk.length = indata.length then
      some (chunk,
        if s1.monitor_enabled then
          { s1 with monitor_queue :=
              monitor_put s1.monitor_queue (List.zipWith (· + ·) chunk indata) }
        else s1)
    else none
  else
    -- outdata[:] = indata; optionally monitor_queue.put(indata.copy())
    some (indata,
      if s.monitor_enabled then
        { s with monitor_queue := monitor_put s.monitor_queue indata }
      else s)

/-- `toggle_record()` of the source (v0.6 lines 112-132, v0.4 lines 110-128). -/
def toggle_record (s : LooperState) : LooperState :=
  if ¬ s.is_recording then
    { s with is_recording := true, is_playing := false }
  else
    -- is_recording = False; drain record_queue into frames
    let frames := s.record_queue
    let s1 := { s with is_recording := false, record_queue := [] }
    if frames.isEmpty then s1
    else
      { s1 with loop_buffer := frames.flatten
                playback_index := 0
                is_playing := true }

/-- `reset_loop()` of the source (v0.6 lines 135-145, v0.4 lines 131-143). -/
def reset_loop (s : LooperState) : LooperState :=
  { s with loop_buffer := []
           is_recording := false
           record_queue := []
           is_playing := false
           playback_index := 0 }

/-- `toggle_playback()` of the source (v0.6 lines 148-151, v0.4 146-149):
an unconditional flip of `is_playing`. -/
def toggle_playback (s : LooperState) : LooperState :=
  { s with is_playing := ! s.is_playing }

/-- `toggle_monitor()` of the source (v0.6 lines 154-157). -/
def toggle_monitor (s : LooperState) : LooperState :=
  { s with monitor_enabled := ! s.monitor_enabled }

/-- The state mutation performed by `record_for_duration()` of the source
(v0.6 lines 160-178) when invoked with a valid duration: if already
recording it reports "Déjà enregistrement" and returns unchanged; otherwise
it drains `record_queue`, zeroes `playback_index`, and starts recording.
The `threading.Timer(sec, toggle_record)` it schedules is modelled by
applying `toggle_record` later to whatever state the timer finds. -/
def record_for_duration (s : LooperState) : LooperState :=
  if s.is_recording then s
  else
    { s with record_queue := []
             playback_index := 0
             is_recording := true
             is_playing := false }

/-- The wraparound read that the specification describes for a playback
block of `n` frames at cursor `c`: a contiguous slice `[c, c+n)` when
`c + n ≤ L`, otherwise the slice `[c, L)` followed by the slice
`[0, n - (L - c))`.  This is the spec-side formula, to be compared with
what `audio_callback` actually outputs. -/
def specWraparoundRead (buf : Block) (c n : Nat) : Block :=
  if c + n ≤ buf.length then (buf.drop c).take n
  else buf.drop c ++ buf.take (n - (buf.length - c))

/-- `n` successive unconditional monitor pushes into an initially empty
monitor queue (the occupancy the sink reaches when the consumer stalls). -/
def monitorFill : Nat → List Block
  | 0 => []
  | n + 1 => monitor_put (monitorFill n) [0]

/-- A loop buffer of 768 distinct frames, `frame i = i` (the spec scenario:
three recorded blocks of 256 mono frames). -/
def buf768 : Block := List.map (fun n : Nat => (n : Int)) (List.range 768)

/-- A 256-frame input block of silence. -/
def silence256 : Block := List.replicate 256 (0 : Int)

/-- A state that is mid-recording with `is_playing` still true (reachable by
`toggle_record` then `toggle_playback`) and an empty capture queue. -/
def recPlayingEmptyQueue : LooperState :=
  { initState with loop_buffer := [3], is_recording := true, is_playing := true }

/-- A state that is mid-recording (paused, idle loop). -/
def recPausedState : LooperState := { initState with is_recording := true }

/-- A state mid-recording with two blocks already captured in the queue. -/
def recWithCaptureState : LooperState :=
  { initState with is_recording := true, record_queue := [[4], [5]] }

/-- A timed-record session (`record_for_duration` from the initial state)
during which the callback has captured one block. -/
def timedSessionWithBlock : LooperState :=
  { record_for_duration initState with record_queue := [[1, 2]] }

/-- States reachable from `initState` by the control operations, where
`toggle_playback` is only invoked while not recording (the guarded
reachability used by the amended invariant claim). -/
inductive ReachableGuarded : LooperState → Prop
  | init : ReachableGuarded initState
  | toggleRec {s} : ReachableGuarded s → ReachableGuarded (toggle_record s)
  | reset {s} : ReachableGuarded s → ReachableGuarded (reset_loop s)
  | play {s} : ReachableGuarded s → s.is_recording = false →
      ReachableGuarded (toggle_playback s)
  | mon {s} : ReachableGuarded s → ReachableGuarded (toggle_monitor s)
  | timed {s} : ReachableGuarded s → ReachableGuarded (record_for_duration s)

/-- Claim C3: with an empty loop buffer (`L = 0`), `playing = true` and
`recording = false`, the callback returns normally (no out-of-bounds read,
no modulo of the cursor is even computed, so no division by zero), copies
the input unchanged to the output, and, when monitoring is enabled, pushes
a copy of the input to the monitor sink; all other state is unchanged. -/
theorem empty_loop_playing_passthrough (ind : Block) (s : LooperState)
    (hb : s.loop_buffer = []) (hp : s.is_playing = true)
    (hr : s.is_recording = false) :
    audio_callback ind s =
      some (ind,
        if s.monitor_enabled then
          { s with monitor_queue := monitor_put s.monitor_queue ind }
        else s) := by
  simp [audio_callback, hb, hp, hr]

/-- Witness for claim C3 at a concrete input: a two-frame block passes
through an empty-loop playing state with monitoring on. -/
theorem empty_loop_playing_passthrough_witness :
    audio_callback [1, 2]
        { initState with is_playing := true, monitor_enabled := true } =
      some ([1, 2],
        { initState with is_playing := true, monitor_enabled := true,
                         monitor_queue := [[1, 2]] }) := by
  have h := empty_loop_playing_passthrough [1, 2]
    { initState with is_playing := true, monitor_enabled := true } rfl rfl rfl
  simpa [monitor_put, initState] using h

/-- Claim C8: reset is absorbing — from any prior state, `reset_loop` leaves
an empty loop buffer, an empty capture queue, cursor `0`, and both
`recording` and `playing` false. -/
theorem reset_loop_absorbing (s : LooperState) :
    (reset_loop s).loop_buffer = [] ∧ (reset_loop s).record_queue = [] ∧
    (reset_loop s).playback_index = 0 ∧ (reset_loop s).is_recording = false ∧
    (reset_loop s).is_playing = false := by
  simp [reset_loop]

/-- Claim C6, counterexample to the claim as stated: in a state with
`recording = true`, `toggle_playback` is not a no-op — it flips `playing`
(the source has no recording guard). -/
theorem toggle_playback_not_noop_while_recording :
    recPausedState.is_recording = true ∧
    toggle_playback recPausedState ≠ recPausedState := by
  decide

/-- Claim C6 (amended): `toggle_playback` unconditionally flips the
`playing` flag — also while recording — and changes nothing else. -/
theorem toggle_playback_always_flips (s : LooperState) :
    (toggle_playback s).is_playing = ! s.is_playing ∧
    (toggle_playback s).is_recording = s.is_recording ∧
    (toggle_playback s).loop_buffer = s.loop_buffer ∧
    (toggle_playback s).record_queue = s.record_queue ∧
    (toggle_playback s).monitor_queue = s.monitor_queue ∧
    (toggle_playback s).monitor_enabled = s.monitor_enabled ∧
    (toggle_playback s).playback_index = s.playback_index := by
  simp [toggle_playback]

/-- Claim C7, counterexample to the claim as stated: `toggle_record` while
`recording = true` is not a no-op — it is the stop transition: it clears the
recording flag and drains the capture queue. -/
theorem toggle_record_while_recording_is_stop :
    recWithCaptureState.is_recording = true ∧
    (toggle_record recWithCaptureState).is_recording = false ∧
    (toggle_record recWithCaptureState).record_queue = [] := by
  decide

/-- Claim C7 (amended): the guarded record entry point is
`record_for_duration`, which, invoked while already recording, is a
complete no-op reported as "already recording": the capture queue, all
flags, the loop buffer and the cursor are unchanged. -/
theorem record_for_duration_noop_while_recording (s : LooperState)
    (h : s.is_recording = true) : record_for_duration s = s := by
  simp [record_for_duration, h]

/-- Witness for amended claim C7: invoking `record_for_duration` on a
recording state with two captured blocks changes nothing. -/
theorem record_for_duration_noop_witness :
    record_for_duration recWithCaptureState = recWithCaptureState :=
  record_for_duration_noop_while_recording recWithCaptureState rfl

/-- Claim C5, counterexample to the claim as stated: the two-operation
sequence `toggle_record; toggle_playback` from the initial state reaches a
state with `recording = true` and `playing = true` simultaneously. -/
theorem unguarded_pause_breaks_invariant :
    (toggle_playback (toggle_record initState)).is_recording = true ∧
    (toggle_playback (toggle_record initState)).is_playing = true := by
  decide

/-- Claim C5 (amended): along every sequence of control operations in which
`toggle_playback` is only invoked while not recording, `recording` and
`playing` are never simultaneously true. -/
theorem reachableGuarded_not_rec_and_play (s : LooperState)
    (h : ReachableGuarded s) :
    ¬ (s.is_recording = true ∧ s.is_playing = true) := by
  induction h with
  | init => simp [initState]
  | toggleRec h ih =>
    rename_i s
    by_cases hr : s.is_recording
    · simp [toggle_record, hr]
      split <;> simp
    · simp [toggle_record, hr]
  | reset h ih => simp [reset_loop]
  | play h hrec ih => simp [toggle_playback, hrec]
  | mon h ih =>
    rename_i s
    simpa [toggle_monitor] using ih
  | timed h ih =>
    rename_i s
    by_cases hr : s.is_recording
    · simpa [record_for_duration, hr] using ih
    · simp [record_for_duration, hr]

/-- Witness for amended claim C5: the invariant instantiated at the initial
state, which is reachable by the empty sequence. -/
theorem reachableGuarded_not_rec_and_play_witness :
    ¬ (initState.is_recording = true ∧ initState.is_playing = true) :=
  reachableGuarded_not_rec_and_play initState ReachableGuarded.init

/-- Claim C4 (a code bug the spec explicitly closes by design): in a timed
record session with one captured block, a manual `toggle_record` stop
materializes the loop and leaves `recording = false`; when the timer then
fires it invokes `toggle_record` again, which is not a no-op — it re-enters
the Recording state (`recording = true`, `playing = false`), a second
spurious transition. -/
theorem timer_after_manual_stop_restarts_recording :
    (toggle_record timedSessionWithBlock).is_recording = false ∧
    (toggle_record timedSessionWithBlock).is_playing = true ∧
    (toggle_record (toggle_record timedSessionWithBlock)).is_recording = true ∧
    (toggle_record (toggle_record timedSessionWithBlock)).is_playing = false := by
  decide

/-- Claim C2, counterexample to the claim as stated: stopping a recording
with an empty capture queue does not return the system to Idle — the
`playing` flag is left untouched, so from a reachable state with
`recording = true` and `playing = true` (see `toggle_record`/
`toggle_playback`) the result has `playing = true`, not `false`. -/
theorem stop_record_empty_queue_keeps_playing :
    recPlayingEmptyQueue.is_recording = true ∧
    recPlayingEmptyQueue.record_queue = [] ∧
    (toggle_record recPlayingEmptyQueue).is_playing = true ∧
    (toggle_record recPlayingEmptyQueue).loop_buffer =
      recPlayingEmptyQueue.loop_buffer ∧
    (toggle_record recPlayingEmptyQueue).playback_index =
      recPlayingEmptyQueue.playback_index := by
  decide

/-- Claim C2 (amended): from any state with `recording = true`,
`toggle_record` drains the capture queue; if the drained blocks are
non-empty the loop buffer becomes exactly their concatenation in order,
the cursor is reset to `0`, `recording := false` and `playing := true`; if
the queue is empty, only `recording` is cleared — the loop buffer, cursor
and the `playing` flag are unchanged (Idle exactly when `playing` already
was false). -/
theorem toggle_record_stop (s : LooperState) (h : s.is_recording = true) :
    (s.record_queue ≠ [] →
      toggle_record s =
        { s with is_recording := false, record_queue := [],
                 loop_buffer := s.record_queue.flatten,
                 playback_index := 0, is_playing := true }) ∧
    (s.record_queue = [] →
      toggle_record s = { s with is_recording := false }) := by
  constructor <;> intro hq
  · simp [toggle_record, h, hq]
  · simp [toggle_record, h, hq]

/-- Witness for amended claim C2: stopping a recording whose queue holds the
blocks `[1,2]` and `[3]` yields the loop `[1,2,3]`, cursor `0`, playback on. -/
theorem toggle_record_stop_witness :
    toggle_record recWithCaptureState =
      { recWithCaptureState with is_recording := false, record_queue := [],
                                 loop_buffer := [4, 5], playback_index := 0,
                                 is_playing := true } := by
  have h := (toggle_record_stop recWithCaptureState rfl).1 (by decide)
  simpa [recWithCaptureState] using h

/-- Claim C9, counterexample to the claim as stated: the monitor sink is
`queue.Queue()` with no `maxsize`, so its occupancy is not bounded by any
fixed bound — for every candidate bound `B`, `B + 1` callback pushes leave
`B + 1` frames in the sink and none is ever dropped. -/
theorem monitor_occupancy_unbounded :
    ¬ ∃ B : Nat, ∀ n : Nat, (monitorFill n).length ≤ B := by
  rintro ⟨B, hB⟩
  have hlen : ∀ n : Nat, (monitorFill n).length = n := by
    intro n
    induction n with
    | zero => rfl
    | succ k ih => simp [monitorFill, monitor_put, ih]
  have := hB (B + 1)
  rw [hlen] at this
  omega

/-- Claim C9 (amended): the monitor sink is an unbounded FIFO — a push from
the audio callback never blocks and never raises, and always appends the
frame at the tail whatever the current occupancy; no frame is dropped, and
no other state changes. -/
theorem monitor_push_always_appends (ind : Block) (s : LooperState)
    (hr : s.is_recording = false) (hp : s.is_playing = false)
    (hm : s.monitor_enabled = true) :
    audio_callback ind s =
      some (ind, { s with monitor_queue := s.monitor_queue ++ [ind] }) := by
  simp [audio_callback, hr, hp, hm, monitor_put]

/-- Witness for amended claim C9: a push onto a sink already holding three
frames still appends (nothing is dropped, no error). -/
theorem monitor_push_always_appends_witness :
    audio_callback [7]
        { initState with monitor_enabled := true,
                         monitor_queue := [[1], [2], [3]] } =
      some ([7],
        { initState with monitor_enabled := true,
                         monitor_queue := [[1], [2], [3], [7]] }) := by
  have h := monitor_push_always_appends [7]
    { initState with monitor_enabled := true,
                     monitor_queue := [[1], [2], [3]] } rfl rfl rfl
  simpa [initState] using h

/-- Claim C10: when not recording, `toggle_playback` changes only the
`playing` flag and `toggle_monitor` changes only the `monitorEnabled` flag
— loop buffer, loop length, cursor, recording flag, capture queue and the
respective other flag are untouched; a pause followed by a resume restores
the state exactly, and while paused the callback passes input through
without advancing the cursor, so resumed playback continues from exactly
the cursor at which it was paused. -/
theorem pause_monitor_frame_conditions (s : LooperState)
    (hr : s.is_recording = false) :
    (toggle_playback s).loop_buffer = s.loop_buffer ∧
    (toggle_playback s).playback_index = s.playback_index ∧
    (toggle_playback s).is_recording = s.is_recording ∧
    (toggle_playback s).record_queue = s.record_queue ∧
    (toggle_playback s).monitor_queue = s.monitor_queue ∧
    (toggle_playback s).monitor_enabled = s.monitor_enabled ∧
    (toggle_monitor s).loop_buffer = s.loop_buffer ∧
    (toggle_monitor s).playback_index = s.playback_index ∧
    (toggle_monitor s).is_recording = s.is_recording ∧
    (toggle_monitor s).is_playing = s.is_playing ∧
    (toggle_monitor s).record_queue = s.record_queue ∧
    (toggle_monitor s).monitor_queue = s.monitor_queue ∧
    toggle_playback (toggle_playback s) = s ∧
    (s.is_playing = true → ∀ ind : Block,
      (audio_callback ind (toggle_playback s)).map
          (fun r => r.2.playback_index) = some s.playback_index) := by
  refine ⟨rfl, rfl, rfl, rfl, rfl, rfl, rfl, rfl, rfl, rfl, rfl, rfl, ?_, ?_⟩
  · simp [toggle_playback]
  · intro hp ind
    simp only [audio_callback, toggle_playback, hr, hp]
    split
    · simp
    · split
      · rename_i hg
        exact absurd hg.1 (by simp)
      · split <;> rfl

/-- Witness for claim C10 at a concrete playing state with a loop of three
frames and cursor 2. -/
theorem pause_monitor_frame_conditions_witness :
    toggle_playback (toggle_playback
        { initState with loop_buffer := [1, 2, 3], is_playing := true,
                         playback_index := 2 }) =
      { initState with loop_buffer := [1, 2, 3], is_playing := true,
                       playback_index := 2 } ∧
    (audio_callback [9]
        (toggle_playback
          { initState with loop_buffer := [1, 2, 3], is_playing := true,
                           playback_index := 2 })).map
        (fun r => r.2.playback_index) = some 2 := by
  have h := pause_monitor_frame_conditions
    { initState with loop_buffer := [1, 2, 3], is_playing := true,
                     playback_index := 2 } rfl
  exact ⟨h.2.2.2.2.2.2.2.2.2.2.2.2.1, h.2.2.2.2.2.2.2.2.2.2.2.2.2 rfl [9]⟩

/-- Claim C1, counterexample to the claim as stated: the claim quantifies
over every block size `N`, but for a loop of length `L = 1` at cursor `0`
and a block of `N = 3` frames the code's splice
`vstack(buf[0:1], buf[0:2])` has only `2` rows (NumPy clamps the slice), so
the write `outdata[:] = chunk` raises a broadcast error (modelled `none`)
instead of outputting the `3` circularly-read frames `[7, 7, 7]`. -/
theorem playback_overlong_block_errors :
    audio_callback [9, 9, 9]
        { initState with loop_buffer := [7], is_playing := true } = none := by
  decide

/-- Claim C1 (amended): for every loop buffer of length `L > 0`, cursor
`c ∈ [0, L)` and block size `N` with `c + N ≤ 2L` (at most one wrap), the
playback branch outputs exactly the wraparound read the spec describes — a
contiguous slice `[c, c+N)` when `c + N ≤ L`, otherwise the slice `[c, L)`
followed by the slice `[0, N - (L - c))` — and the cursor afterwards equals
`(c + N) mod L`; with monitoring enabled, the elementwise sum of that chunk
and the input is pushed to the monitor sink. -/
theorem playback_wraparound_correct (buf : Block) (c : Nat) (ind : Block)
    (rq mq : List Block) (mon : Bool)
    (hc : c < buf.length) (hn : c + ind.length ≤ 2 * buf.length) :
    audio_callback ind
      { loop_buffer := buf, record_queue := rq, monitor_queue := mq,
        is_recording := false, is_playing := true, monitor_enabled := mon,
        playback_index := c } =
    some (specWraparoundRead buf c ind.length,
      { loop_buffer := buf, record_queue := rq,
        monitor_queue :=
          if mon then
            monitor_put mq
              (List.zipWith (· + ·) (specWraparoundRead buf c ind.length) ind)
          else mq,
        is_recording := false, is_playing := true, monitor_enabled := mon,
        playback_index := (c + ind.length) % buf.length }) := by
  have hL : 0 < buf.length := Nat.lt_of_le_of_lt (Nat.zero_le c) hc
  by_cases h : c + ind.length ≤ buf.length
  · have hlen : ((buf.drop c).take ind.length).length = ind.length := by
      simp only [List.length_take, List.length_drop]
      omega
    cases mon <;>
      simp [audio_callback, specWraparoundRead, hL, h, hlen, monitor_put]
  · have he : c + ind.length - buf.length = ind.length - (buf.length - c) := by
      omega
    have hmin :
        (ind.length - (buf.length - c)) ⊓ buf.length =
          ind.length - (buf.length - c) :=
      Nat.min_eq_left (by omega)
    have hlen2 :
        buf.length - c + (ind.length - (buf.length - c)) = ind.length := by
      omega
    cases mon <;>
      simp [audio_callback, specWraparoundRead, hL, h, he, hmin, hlen2,
        monitor_put]

/-- Witness for amended claim C1, the spec's own scenario: a loop of
`L = 768` frames (frame `i` holds sample `i`), cursor `700`, a `256`-frame
block — the output is the `68` frames `[700, 768)` followed by the `188`
frames `[0, 188)`, and the cursor becomes `188`. -/
theorem playback_wraparound_correct_witness :
    700 < buf768.length ∧ 700 + silence256.length ≤ 2 * buf768.length ∧
    audio_callback silence256
      { loop_buffer := buf768, record_queue := [], monitor_queue := [],
        is_recording := false, is_playing := true, monitor_enabled := false,
        playback_index := 700 } =
    some (buf768.drop 700 ++ buf768.take 188,
      { loop_buffer := buf768, record_queue := [], monitor_queue := [],
        is_recording := false, is_playing := true, monitor_enabled := false,
        playback_index := 188 }) := by
  have hlen : buf768.length = 768 := by
    rw [buf768, List.length_map, List.length_range]
  have hn : silence256.length = 256 := by
    rw [silence256, List.length_replicate]
  refine ⟨by omega, by omega, ?_⟩
  have h := playback_wraparound_correct buf768 700 silence256 [] [] false
    (by omega) (by omega)
  rw [h]
  simp only [specWraparoundRead, hn, hlen]
  norm_num
